import Mathlib

/-!
A shallow embedding of the core logic of the SGRS_PORTAL student grievance
application (`src/app.py`) together with proofs about it.

The persistent store is modelled as explicit lists of records; SQLAlchemy
queries become list traversals; `datetime.utcnow()` becomes an explicit
`now : Nat` (seconds) or `today : String` (a `YYYYMMDD` tag) argument; form
fields arrive as already-extracted strings, with a missing form key modelled
as `Option String` where the code distinguishes presence (`form.get`).
Python `int(...)` on a string is modelled by `pyInt?`, which parses an
optional leading minus sign followed by decimal digits and fails (`none`,
standing for the raised `ValueError`) otherwise.  A route handler becomes a
pure function from the relevant state and request fields to the new state
(or an `Option`/outcome type when the Python code can raise).
-/

namespace SGRS

/-- `User` model (`src/app.py` lines 22-32): id, role
(`student`/`authority`/`admin`), optional department. -/
structure User where
  id : Int
  username : String
  role : String
  department : Option String
deriving DecidableEq

/-- `GrievanceUpdate` model (lines 61-69): an audit entry attached to a
grievance; `user_id` and `status_change` are nullable. -/
structure GrievanceUpdate where
  grievance_id : Int
  user_id : Option Int
  message : String
  status_change : Option String
  created_at : Nat
deriving DecidableEq

/-- `Feedback` model (lines 72-78). -/
structure Feedback where
  grievance_id : Int
  user_id : Option Int
  rating : Int
  comment : String
  created_at : Nat
deriving DecidableEq

/-- `Grievance` model (lines 35-58).  The `updates` relationship is kept
newest-first, as the source orders it (`GrievanceUpdate.created_at.desc()`);
a freshly inserted audit row is therefore consed to the front. -/
structure Grievance where
  id : Int
  ticket_id : String
  title : String
  description : String
  category : String
  priority : String
  status : String
  is_anonymous : Bool
  student_id : Option Int
  assigned_to : Option Int
  created_at : Nat
  resolved_at : Option Nat
  deadline : Option Nat
  escalation_level : Nat
  updates : List GrievanceUpdate
  feedback : Option Feedback
deriving DecidableEq

/-- Decimal value of a digit string, accumulator style. -/
def decValue : List Char → Nat → Nat
  | [], acc => acc
  | c :: cs, acc => decValue cs (acc * 10 + (c.toNat - '0'.toNat))

/-- Parse a non-empty all-digit character list as a natural number. -/
def decDigits? (cs : List Char) : Option Nat :=
  if cs ≠ [] ∧ cs.all (fun c => c.isDigit) then some (decValue cs 0) else none

/-- Python `int(s)` restricted to what the app feeds it: an optional leading
minus sign followed by decimal digits.  `none` models the raised
`ValueError`.  (Python also tolerates surrounding whitespace, a `+` sign and
digit-group underscores; the app never produces those.) -/
def pyInt? (s : String) : Option Int :=
  match s.data with
  | '-' :: cs => (decDigits? cs).map (fun n => -(n : Int))
  | cs => (decDigits? cs).map (fun n => (n : Int))

/-- Python whitespace as recognized by `str.strip()`. -/
def pySpace (c : Char) : Bool :=
  c == ' ' || c == '\t' || c == '\n' || c == '\r' || c == '\x0b' || c == '\x0c'

/-- Python `s.strip()`: drop leading and trailing whitespace. -/
def pyStrip (s : String) : String :=
  String.mk (((s.data.dropWhile pySpace).reverse.dropWhile pySpace).reverse)

/-- SQL `LIKE 'p%'` / string-prefix test, on the underlying characters. -/
def likeStart (p s : String) : Bool :=
  p.data.isPrefixOf s.data

/-- Python `f'{n:04d}'`: decimal rendering zero-padded to a minimum total
width of 4 (the sign, when present, counts toward the width). -/
def pad4 (n : Int) : String :=
  let s := toString n.natAbs
  if n < 0 then
    if s.length + 1 < 4 then "-" ++ String.mk (List.replicate (4 - 1 - s.length) '0') ++ s
    else "-" ++ s
  else
    if s.length < 4 then String.mk (List.replicate (4 - s.length) '0') ++ s
    else s

/-- Characters after the last `'-'` (the whole string when there is none):
the field Python's `tid.split('-')[-1]` selects. -/
def lastFieldAux : List Char → List Char → List Char
  | [], acc => acc.reverse
  | c :: cs, acc => if c = '-' then lastFieldAux cs [] else lastFieldAux cs (c :: acc)

/-- Python `tid.split('-')[-1]`. -/
def lastDashField (tid : String) : String :=
  String.mk (lastFieldAux tid.data [])

/-- The `Grievance.query...order_by(Grievance.id.desc()).first()` part of
`generate_ticket_id`: among the grievances whose `ticket_id` matches
`GRV-<today>-%`, the one with the largest primary key, if any. -/
def lastTicketToday (today : String) (grievances : List Grievance) : Option Grievance :=
  (grievances.filter (fun g => likeStart ("GRV-" ++ today ++ "-") g.ticket_id)).foldl
    (fun acc g => match acc with
      | none => some g
      | some m => if g.id > m.id then some g else some m) none

/-- `generate_ticket_id` (lines 83-91).  `today` is `utcnow().strftime('%Y%m%d')`.
Returns `none` when `int(last.ticket_id.split('-')[-1])` would raise. -/
def generate_ticket_id (today : String) (grievances : List Grievance) : Option String :=
  match lastTicketToday today grievances with
  | none => some ("GRV-" ++ today ++ "-" ++ pad4 1)
  | some last =>
    match pyInt? (lastDashField last.ticket_id) with
    | none => none
    | some n => some ("GRV-" ++ today ++ "-" ++ pad4 (n + 1))

example : generate_ticket_id "20260219" [] = some "GRV-20260219-0001" := by decide

/-- `get_deadline` (lines 94-97): `utcnow() + timedelta(days=days_map.get(priority, 7))`,
with `days_map = {'low': 14, 'medium': 7, 'high': 3, 'urgent': 1}`.
Timestamps are seconds, so a day is 86400. -/
def get_deadline (priority : String) (now : Nat) : Nat :=
  let days : Nat :=
    if priority = "low" then 14
    else if priority = "medium" then 7
    else if priority = "high" then 3
    else if priority = "urgent" then 1
    else 7
  now + 86400 * days

/-- `auto_assign` (lines 100-105): first user with `role='authority'` and
`department=category`; failing that, first user with `role='admin'`; failing
that, `None`. -/
def auto_assign (users : List User) (category : String) : Option Int :=
  match users.find? (fun u => u.role == "authority" && u.department == some category) with
  | some authority => some authority.id
  | none =>
    match users.find? (fun u => u.role == "admin") with
    | some authority => some authority.id
    | none => none

/-- `submit_grievance`, POST branch (lines 246-277).  `title` and
`description` are `.strip()`ped; `session.get('user_id')` is the optional
`session_uid`; `new_pk` is the primary key the database hands the fresh row.
No field is validated.  Returns `none` exactly when `generate_ticket_id`
raises; otherwise the stored grievance, including its initial audit update
(which the source creates with no `user_id`). -/
def submit_grievance (users : List User) (grievances : List Grievance)
    (session_uid : Option Int) (is_anonymous : Bool)
    (title description category priority : String)
    (today : String) (now : Nat) (new_pk : Int) : Option Grievance :=
  match generate_ticket_id today grievances with
  | none => none
  | some tid =>
    let student_id := if is_anonymous then none else session_uid
    let g : Grievance :=
      { id := new_pk
        ticket_id := tid
        title := pyStrip title
        description := pyStrip description
        category := category
        priority := priority
        status := "submitted"
        is_anonymous := is_anonymous
        student_id := student_id
        assigned_to := auto_assign users category
        created_at := now
        resolved_at := none
        deadline := some (get_deadline priority now)
        escalation_level := 0
        updates := []
        feedback := none }
    some { g with updates :=
      [{ grievance_id := new_pk
         user_id := none
         message := "Grievance submitted successfully and routed to the concerned authority."
         status_change := some "submitted"
         created_at := now }] }

/-- `track_grievance` (lines 289-298): public lookup by `.strip()`ped ticket
id.  It takes no actor: the route has no `login_required` decorator and
performs no role or ownership check. -/
def track_grievance (grievances : List Grievance) (ticket_id : String) : Option Grievance :=
  grievances.find? (fun g => g.ticket_id == pyStrip ticket_id)

/-- The access-control test of `grievance_detail` (lines 310-312): a student
is denied unless the grievance's `student_id` equals their id; authorities
and admins are never denied by this route. -/
def detail_access_ok (u : User) (g : Grievance) : Bool :=
  !(u.role == "student" && g.student_id != some u.id)

/-- `update_grievance`, POST body (lines 322-347).  `message` is `.strip()`ped,
`new_status`/`new_assignee` default to `''` when absent.  Status is applied
only for authority/admin actors; reassignment only for admins; a non-empty
message always creates an audit row whose `status_change` is the submitted
status (if any) whether or not it was applied.  Returns `none` when
`int(new_assignee)` raises (in which case nothing is committed). -/
def update_grievance (actor : User) (g : Grievance)
    (message new_status new_assignee : String) (now : Nat) : Option Grievance :=
  let msg := pyStrip message
  let g1 :=
    if new_status ≠ "" ∧ (actor.role = "authority" ∨ actor.role = "admin") then
      { g with status := new_status
               resolved_at :=
                 if new_status = "resolved" ∨ new_status = "closed" then some now
                 else g.resolved_at }
    else g
  let step2 : Option Grievance :=
    if new_assignee ≠ "" ∧ actor.role = "admin" then
      match pyInt? new_assignee with
      | none => none
      | some aid => some { g1 with assigned_to := some aid }
    else some g1
  match step2 with
  | none => none
  | some g2 =>
    if msg ≠ "" then
      some { g2 with updates :=
        { grievance_id := g.id
          user_id := some actor.id
          message := msg
          status_change := if new_status ≠ "" then some new_status else none
          created_at := now } :: g2.updates }
    else some g2

/-- `escalate_grievance`, POST body (lines 357-373).  Any logged-in actor may
call it; `session_uid` is `session.get('user_id')`. -/
def escalate_grievance (users : List User) (session_uid : Option Int)
    (g : Grievance) (now : Nat) : Grievance :=
  let g1 := { g with status := "escalated", escalation_level := g.escalation_level + 1 }
  let g2 :=
    match users.find? (fun u => u.role == "admin") with
    | some admin => { g1 with assigned_to := some admin.id }
    | none => g1
  { g2 with updates :=
      { grievance_id := g.id
        user_id := session_uid
        message := "Grievance escalated to level " ++ toString g1.escalation_level
          ++ ". Reassigned to administration."
        status_change := some "escalated"
        created_at := now } :: g2.updates }

/-- Outcome of the feedback route: `conflict` models the early redirect when
feedback already exists, `err` the `ValueError` raised by `int(...)` on a
present but unparseable rating; in every case `g` is the grievance as stored
after the request. -/
structure FeedbackResult where
  conflict : Bool
  err : Bool
  g : Grievance
deriving DecidableEq

/-- `submit_feedback`, POST body (lines 384-399).  `rating_input` is
`request.form.get('rating')`: `none` when the form key is missing, in which
case the source's `form.get('rating', 3)` supplies the default 3; a present
value goes through `int(...)`.  `comment` is `.strip()`ped. -/
def submit_feedback (g : Grievance) (session_uid : Option Int)
    (rating_input : Option String) (comment : String) (now : Nat) : FeedbackResult :=
  match g.feedback with
  | some _ => { conflict := true, err := false, g := g }
  | none =>
    let rating? : Option Int :=
      match rating_input with
      | none => some 3
      | some s => pyInt? s
    match rating? with
    | none => { conflict := false, err := true, g := g }
    | some r =>
      let fb : Feedback :=
        { grievance_id := g.id
          user_id := session_uid
          rating := r
          comment := pyStrip comment
          created_at := now }
      { conflict := false, err := false, g := { g with feedback := some fb } }

/-- A concrete grievance record used in concrete instantiations: primary key
`pk`, ticket id `tid`, everything else fixed benign values. -/
def mkG (pk : Int) (tid : String) : Grievance :=
  { id := pk, ticket_id := tid, title := "t", description := "d",
    category := "hostel", priority := "high", status := "submitted",
    is_anonymous := false, student_id := some 7, assigned_to := none,
    created_at := 0, resolved_at := none, deadline := none,
    escalation_level := 0, updates := [], feedback := none }

/-! ## Helper lemmas -/

/-- The `fun acc g => ...` step of `lastTicketToday`. -/
def latestStep (acc : Option Grievance) (g : Grievance) : Option Grievance :=
  match acc with
  | none => some g
  | some m => if g.id > m.id then some g else some m

lemma lastTicketToday_eq_foldl (today : String) (db : List Grievance) :
    lastTicketToday today db =
      (db.filter (fun g => likeStart ("GRV-" ++ today ++ "-") g.ticket_id)).foldl
        latestStep none := rfl

lemma foldl_latestStep_some (gs : List Grievance) (m : Grievance) :
    ∃ r, gs.foldl latestStep (some m) = some r ∧ (r = m ∨ r ∈ gs) ∧
      m.id ≤ r.id ∧ ∀ x ∈ gs, x.id ≤ r.id := by
  induction gs generalizing m with
  | nil => exact ⟨m, rfl, Or.inl rfl, le_refl _, by simp⟩
  | cons x xs ih =>
    by_cases hx : x.id > m.id
    · obtain ⟨r, hr, hmem, hle, hall⟩ := ih x
      refine ⟨r, ?_, ?_, ?_, ?_⟩
      · simpa [latestStep, hx] using hr
      · rcases hmem with h | h
        · exact Or.inr (by simp [h])
        · exact Or.inr (by simp [h])
      · omega
      · intro y hy
        rcases List.mem_cons.mp hy with rfl | hy
        · omega
        · exact hall y hy
    · obtain ⟨r, hr, hmem, hle, hall⟩ := ih m
      refine ⟨r, ?_, ?_, hle, ?_⟩
      · simpa [latestStep, hx] using hr
      · rcases hmem with h | h
        · exact Or.inl h
        · exact Or.inr (by simp [h])
      · intro y hy
        rcases List.mem_cons.mp hy with rfl | hy
        · omega
        · exact hall y hy

lemma lastTicketToday_none (today : String) (db : List Grievance)
    (h : ∀ g ∈ db, likeStart ("GRV-" ++ today ++ "-") g.ticket_id = false) :
    lastTicketToday today db = none := by
  rw [lastTicketToday_eq_foldl]
  have hfilter : db.filter (fun g => likeStart ("GRV-" ++ today ++ "-") g.ticket_id) = [] := by
    rw [List.filter_eq_nil_iff]
    intro g hg
    simp [h g hg]
  rw [hfilter]
  rfl

lemma lastTicketToday_spec (today : String) (db : List Grievance) (last : Grievance)
    (h : lastTicketToday today db = some last) :
    last ∈ db ∧ likeStart ("GRV-" ++ today ++ "-") last.ticket_id = true ∧
      ∀ g ∈ db, likeStart ("GRV-" ++ today ++ "-") g.ticket_id = true → g.id ≤ last.id := by
  rw [lastTicketToday_eq_foldl] at h
  cases hfl : db.filter (fun g => likeStart ("GRV-" ++ today ++ "-") g.ticket_id) with
  | nil => rw [hfl] at h; exact absurd h (by simp [List.foldl])
  | cons x xs =>
    rw [hfl] at h
    have hmeml : ∀ y ∈ x :: xs, y ∈ db ∧ likeStart ("GRV-" ++ today ++ "-") y.ticket_id = true := by
      intro y hy
      have := List.mem_filter.mp (hfl ▸ hy)
      exact ⟨this.1, this.2⟩
    have hinl : ∀ g ∈ db, likeStart ("GRV-" ++ today ++ "-") g.ticket_id = true → g ∈ x :: xs := by
      intro g hg hp
      exact hfl ▸ List.mem_filter.mpr ⟨hg, hp⟩
    obtain ⟨r, hr, hmem, hle, hall⟩ := foldl_latestStep_some xs x
    have hstep : latestStep none x = some x := rfl
    rw [List.foldl_cons, hstep, hr] at h
    have hr' : r = last := Option.some_injective _ h
    have hrl : r ∈ x :: xs := by
      rcases hmem with h' | h'
      · simp [h']
      · simp [h']
    refine ⟨hr' ▸ (hmeml r hrl).1, hr' ▸ (hmeml r hrl).2, ?_⟩
    intro g hg hp
    have hgl : g ∈ x :: xs := hinl g hg hp
    rcases List.mem_cons.mp hgl with rfl | hgl
    · exact hr' ▸ hle
    · exact hr' ▸ hall g hgl

/-- `toString` on `Nat` is `Nat.repr`. -/
lemma toString_nat_eq_repr (n : Nat) : toString n = Nat.repr n := rfl

lemma pad4_length_of_le (n : Int) (h0 : 0 ≤ n) (h : n ≤ 9999) : (pad4 n).length = 4 := by
  have hlt : ¬ n < 0 := not_lt.mpr h0
  have hrepr : (Nat.repr n.natAbs).length ≤ 4 := by
    apply Nat.repr_length n.natAbs 4 (by omega)
    have : n.natAbs ≤ 9999 := by omega
    omega
  unfold pad4
  simp only [toString_nat_eq_repr, if_neg hlt]
  by_cases hc : (Nat.repr n.natAbs).length < 4
  · rw [if_pos hc, String.length_append]
    have : (String.mk (List.replicate (4 - (Nat.repr n.natAbs).length) '0')).length
        = 4 - (Nat.repr n.natAbs).length := by
      show (List.replicate (4 - (Nat.repr n.natAbs).length) '0').length = _
      exact List.length_replicate _ _
    omega
  · rw [if_neg hc]
    omega

/-! ## C1 — ticket identifier generation -/

/-- C1 (counterexample): the claim asserts the returned identifier always has
a 4-digit sequence equal to (suffix of the most recent ticket for today) + 1.
With an existing ticket `GRV-20260219-9999` (suffix 9999), the code returns
`GRV-20260219-10000`, whose sequence field `10000` has 5 characters — no
4-digit sequence can equal 9999 + 1, so the claim as stated is false here. -/
theorem C1_counterexample :
    generate_ticket_id "20260219" [mkG 1 "GRV-20260219-9999"] = some "GRV-20260219-10000"
    ∧ pyInt? (lastDashField "GRV-20260219-9999") = some 9999
    ∧ lastDashField "GRV-20260219-10000" = "10000"
    ∧ (lastDashField "GRV-20260219-10000").length ≠ 4 := by
  refine ⟨by decide, by decide, by decide, by decide⟩

/-- C1 (amended): `generate_ticket_id` returns `GRV-<today>-0001` when no
stored ticket id carries today's prefix, and otherwise
`GRV-<today>-<pad4 (n+1)>` where `n` is the parsed numeric suffix of the
most recent (highest primary key) ticket whose id carries today's prefix;
the sequence field is zero-padded to a minimum width of 4, and is exactly
4 characters whenever the sequence value is at most 9999 (beyond that the
code silently emits a wider suffix). -/
theorem C1_ticket_id_generation (today : String) (db : List Grievance) :
    ((∀ g ∈ db, likeStart ("GRV-" ++ today ++ "-") g.ticket_id = false) →
      generate_ticket_id today db = some ("GRV-" ++ today ++ "-" ++ "0001"))
    ∧ (∀ last n, lastTicketToday today db = some last →
        pyInt? (lastDashField last.ticket_id) = some n →
        generate_ticket_id today db = some ("GRV-" ++ today ++ "-" ++ pad4 (n + 1)))
    ∧ (∀ last, lastTicketToday today db = some last →
        last ∈ db ∧ likeStart ("GRV-" ++ today ++ "-") last.ticket_id = true ∧
        ∀ g ∈ db, likeStart ("GRV-" ++ today ++ "-") g.ticket_id = true → g.id ≤ last.id)
    ∧ (∀ n : Int, 0 ≤ n → n ≤ 9999 → (pad4 n).length = 4) := by
  refine ⟨?_, ?_, ?_, ?_⟩
  · intro hnone
    unfold generate_ticket_id
    rw [lastTicketToday_none today db hnone]
    rfl
  · intro last n hlast hparse
    unfold generate_ticket_id
    rw [hlast]
    dsimp only
    rw [hparse]
  · intro last hlast
    exact lastTicketToday_spec today db last hlast
  · intro n h0 h
    exact pad4_length_of_le n h0 h

/-- C1 witness: with no tickets stored, the generator yields sequence 0001;
with `GRV-20260219-0041` stored, it yields `pad4 42 = "0042"`, which has
4 characters. -/
theorem C1_witness :
    generate_ticket_id "20260219" [] = some ("GRV-" ++ "20260219" ++ "-" ++ "0001")
    ∧ generate_ticket_id "20260219" [mkG 1 "GRV-20260219-0041"]
        = some ("GRV-" ++ "20260219" ++ "-" ++ pad4 (41 + 1))
    ∧ (pad4 (41 + 1)).length = 4 := by
  refine ⟨?_, ?_, ?_⟩
  · exact (C1_ticket_id_generation "20260219" []).1 (by decide)
  · exact (C1_ticket_id_generation "20260219" [mkG 1 "GRV-20260219-0041"]).2.1
      (mkG 1 "GRV-20260219-0041") 41 (by decide) (by decide)
  · exact (C1_ticket_id_generation "20260219" []).2.2.2 42 (by decide) (by decide)

/-! ## C2 — update authorization -/

/-- C2: in `update_grievance`, the status is changed exactly when a new
status is supplied and the actor is an authority or admin; the assignee is
changed exactly when a new assignee is supplied and the actor is an admin
(and it parses, else the whole request dies); a non-empty (stripped) message
is always recorded as a fresh audit entry; and an unauthorized portion is
silently dropped while the permitted portion and the message still apply. -/
theorem C2_update_authorization (actor : User) (g : Grievance)
    (message new_status new_assignee : String) (now : Nat) :
    (update_grievance actor g message new_status new_assignee now = none ↔
      new_assignee ≠ "" ∧ actor.role = "admin" ∧ pyInt? new_assignee = none)
    ∧ ∀ g', update_grievance actor g message new_status new_assignee now = some g' →
      ((new_status ≠ "" ∧ (actor.role = "authority" ∨ actor.role = "admin")) →
        g'.status = new_status)
      ∧ (¬(new_status ≠ "" ∧ (actor.role = "authority" ∨ actor.role = "admin")) →
        g'.status = g.status)
      ∧ ((new_assignee ≠ "" ∧ actor.role = "admin") →
        ∃ aid, pyInt? new_assignee = some aid ∧ g'.assigned_to = some aid)
      ∧ (¬(new_assignee ≠ "" ∧ actor.role = "admin") → g'.assigned_to = g.assigned_to)
      ∧ (pyStrip message ≠ "" →
        ∃ e, g'.updates = e :: g.updates ∧ e.message = pyStrip message ∧
          e.user_id = some actor.id ∧
          e.status_change = (if new_status ≠ "" then some new_status else none))
      ∧ (pyStrip message = "" → g'.updates = g.updates) := by
  constructor
  · by_cases hA : (new_assignee ≠ "" ∧ actor.role = "admin")
    · cases hP : pyInt? new_assignee with
      | none =>
        simp only [update_grievance]
        rw [if_pos hA, hP]
        simp [hA.1, hA.2, hP]
      | some aid =>
        simp only [update_grievance]
        rw [if_pos hA, hP]
        dsimp only
        by_cases hM : (pyStrip message ≠ "")
        · rw [if_pos hM]; simp [hP]
        · rw [if_neg hM]; simp [hP]
    · simp only [update_grievance]
      rw [if_neg hA]
      dsimp only
      by_cases hM : (pyStrip message ≠ "")
      · rw [if_pos hM]; simp; tauto
      · rw [if_neg hM]; simp; tauto
  · intro g' hg'
    simp only [update_grievance] at hg'
    by_cases hS : (new_status ≠ "" ∧ (actor.role = "authority" ∨ actor.role = "admin")) <;>
      by_cases hA : (new_assignee ≠ "" ∧ actor.role = "admin")
    · rw [if_pos hS, if_pos hA] at hg'
      cases hP : pyInt? new_assignee with
      | none => rw [hP] at hg'; simp at hg'
      | some aid =>
        rw [hP] at hg'
        dsimp only at hg'
        by_cases hM : (pyStrip message ≠ "")
        · rw [if_pos hM] at hg'
          rw [Option.some.injEq] at hg'
          subst hg'
          refine ⟨fun _ => rfl, fun h => absurd hS h, fun _ => ⟨aid, rfl, rfl⟩,
            fun h => absurd hA h, fun _ => ⟨_, rfl, rfl, rfl, rfl⟩, fun h => absurd h hM⟩
        · rw [if_neg hM] at hg'
          rw [Option.some.injEq] at hg'
          subst hg'
          refine ⟨fun _ => rfl, fun h => absurd hS h, fun _ => ⟨aid, rfl, rfl⟩,
            fun h => absurd hA h, fun h => absurd h hM, fun _ => rfl⟩
    · rw [if_pos hS, if_neg hA] at hg'
      dsimp only at hg'
      by_cases hM : (pyStrip message ≠ "")
      · rw [if_pos hM] at hg'
        rw [Option.some.injEq] at hg'
        subst hg'
        refine ⟨fun _ => rfl, fun h => absurd hS h, fun h => absurd h hA,
          fun _ => rfl, fun _ => ⟨_, rfl, rfl, rfl, rfl⟩, fun h => absurd h hM⟩
      · rw [if_neg hM] at hg'
        rw [Option.some.injEq] at hg'
        subst hg'
        refine ⟨fun _ => rfl, fun h => absurd hS h, fun h => absurd h hA,
          fun _ => rfl, fun h => absurd h hM, fun _ => rfl⟩
    · rw [if_neg hS, if_pos hA] at hg'
      cases hP : pyInt? new_assignee with
      | none => rw [hP] at hg'; simp at hg'
      | some aid =>
        rw [hP] at hg'
        dsimp only at hg'
        by_cases hM : (pyStrip message ≠ "")
        · rw [if_pos hM] at hg'
          rw [Option.some.injEq] at hg'
          subst hg'
          refine ⟨fun h => absurd h hS, fun _ => rfl, fun _ => ⟨aid, rfl, rfl⟩,
            fun h => absurd hA h, fun _ => ⟨_, rfl, rfl, rfl, rfl⟩, fun h => absurd h hM⟩
        · rw [if_neg hM] at hg'
          rw [Option.some.injEq] at hg'
          subst hg'
          refine ⟨fun h => absurd h hS, fun _ => rfl, fun _ => ⟨aid, rfl, rfl⟩,
            fun h => absurd hA h, fun h => absurd h hM, fun _ => rfl⟩
    · rw [if_neg hS, if_neg hA] at hg'
      dsimp only at hg'
      by_cases hM : (pyStrip message ≠ "")
      · rw [if_pos hM] at hg'
        rw [Option.some.injEq] at hg'
        subst hg'
        refine ⟨fun h => absurd h hS, fun _ => rfl, fun h => absurd h hA,
          fun _ => rfl, fun _ => ⟨_, rfl, rfl, rfl, rfl⟩, fun h => absurd h hM⟩
      · rw [if_neg hM] at hg'
        rw [Option.some.injEq] at hg'
        subst hg'
        refine ⟨fun h => absurd h hS, fun _ => rfl, fun h => absurd h hA,
          fun _ => rfl, fun h => absurd h hM, fun _ => rfl⟩

/-- Concrete users for concrete instantiations, mirroring the seed data. -/
def uAdmin : User := { id := 1, username := "admin", role := "admin", department := some "administration" }

def uAuthHostel : User := { id := 2, username := "hostel_warden", role := "authority", department := some "hostel" }

def uStudent : User := { id := 7, username := "stu", role := "student", department := none }

/-- C2 witness instantiation: the state `update_grievance` produces for an
authority actor posting message "note" and status `in_progress`. -/
def gC2 : Grievance := mkG 1 "GRV-20260219-0001"

def gC2' : Grievance :=
  { gC2 with status := "in_progress",
             updates := [{ grievance_id := 1, user_id := some 2, message := "note",
                           status_change := some "in_progress", created_at := 5 }] }

/-- C2 witness: an authority actor supplies a status and a message but no
assignee; the update succeeds, the status is applied, the assignment is
untouched, and the message lands in a fresh audit entry. -/
theorem C2_witness :
    update_grievance uAuthHostel gC2 "note" "in_progress" "" 5 = some gC2'
    ∧ gC2'.status = "in_progress"
    ∧ gC2'.assigned_to = gC2.assigned_to := by
  have h : update_grievance uAuthHostel gC2 "note" "in_progress" "" 5 = some gC2' := by decide
  have hparts := (C2_update_authorization uAuthHostel gC2 "note" "in_progress" "" 5).2 gC2' h
  exact ⟨h, hparts.1 (by decide), hparts.2.2.2.1 (by decide)⟩

/-! ## C3 — status change and audit entry are not atomic -/

/-- C3 (code bug): the design requires a status change and its audit entry to
happen together, but `update_grievance` violates both directions.  An
authority posting `status=resolved` with an empty message changes the status
and appends no audit entry; a student posting a message together with
`status=resolved` appends an audit entry tagged `status_change=resolved`
while the status stays `submitted`. -/
theorem C3_status_audit_not_atomic :
    (update_grievance uAuthHostel (mkG 1 "T") "" "resolved" "" 50 =
      some { mkG 1 "T" with status := "resolved", resolved_at := some 50 }
    ∧ (mkG 1 "T").status ≠ "resolved"
    ∧ ({ mkG 1 "T" with status := "resolved", resolved_at := some 50 } : Grievance).updates
        = (mkG 1 "T").updates)
    ∧ (update_grievance uStudent (mkG 2 "T2") "please" "resolved" "" 60 =
      some { mkG 2 "T2" with
              updates := [{ grievance_id := 2, user_id := some 7, message := "please",
                            status_change := some "resolved", created_at := 60 }] }
    ∧ ({ mkG 2 "T2" with
          updates := [{ grievance_id := 2, user_id := some 7, message := "please",
                        status_change := some "resolved", created_at := 60 }] } : Grievance).status
        = "submitted") := by
  refine ⟨⟨by decide, by decide, by decide⟩, by decide, by decide⟩

/-! ## C4 — at most one feedback per grievance -/

/-- C4: once a grievance has a feedback record, any further submission — by
any actor, with any rating input — is rejected as a conflict and the stored
grievance, including its first feedback, is unchanged. -/
theorem C4_feedback_conflict (g : Grievance) (fb : Feedback) (uid : Option Int)
    (rating_input : Option String) (comment : String) (now : Nat)
    (h : g.feedback = some fb) :
    (submit_feedback g uid rating_input comment now).conflict = true
    ∧ (submit_feedback g uid rating_input comment now).g = g
    ∧ (submit_feedback g uid rating_input comment now).g.feedback = some fb := by
  simp [submit_feedback, h]

def fbFirst : Feedback := { grievance_id := 3, user_id := some 7, rating := 4, comment := "ok", created_at := 1 }

def gWithFb : Grievance := { mkG 3 "T3" with feedback := some fbFirst }

/-- C4 witness: a second feedback on `gWithFb`, by a different actor (id 9),
is rejected and the first feedback survives unchanged. -/
theorem C4_witness :
    gWithFb.feedback = some fbFirst
    ∧ (submit_feedback gWithFb (some 9) (some "5") "again" 99).conflict = true
    ∧ (submit_feedback gWithFb (some 9) (some "5") "again" 99).g = gWithFb := by
  have hparts := C4_feedback_conflict gWithFb fbFirst (some 9) (some "5") "again" 99 (by decide)
  exact ⟨by decide, hparts.1, hparts.2.1⟩

/-! ## C5 — escalation -/

lemma escalate_status (users : List User) (uid : Option Int) (g : Grievance) (now : Nat) :
    (escalate_grievance users uid g now).status = "escalated" := by
  cases hF : users.find? (fun u => u.role == "admin") <;> simp [escalate_grievance, hF]

lemma escalate_level (users : List User) (uid : Option Int) (g : Grievance) (now : Nat) :
    (escalate_grievance users uid g now).escalation_level = g.escalation_level + 1 := by
  cases hF : users.find? (fun u => u.role == "admin") <;> simp [escalate_grievance, hF]

lemma escalate_updates (users : List User) (uid : Option Int) (g : Grievance) (now : Nat) :
    (escalate_grievance users uid g now).updates =
      { grievance_id := g.id, user_id := uid,
        message := "Grievance escalated to level " ++ toString (g.escalation_level + 1)
          ++ ". Reassigned to administration.",
        status_change := some "escalated", created_at := now } :: g.updates := by
  cases hF : users.find? (fun u => u.role == "admin") <;> simp [escalate_grievance, hF]

/-- C5: escalation sets status `escalated`, increments the escalation level
by exactly 1 (so two escalations of a fresh grievance reach level 2),
reassigns to an admin when one exists (overwriting the assignment, untouched
when no admin exists), and prepends one audit entry naming the new level. -/
theorem C5_escalate (users : List User) (uid : Option Int) (g : Grievance) (now : Nat) :
    (escalate_grievance users uid g now).status = "escalated"
    ∧ (escalate_grievance users uid g now).escalation_level = g.escalation_level + 1
    ∧ ((∃ a ∈ users, a.role = "admin") →
        ∃ a ∈ users, a.role = "admin" ∧ (escalate_grievance users uid g now).assigned_to = some a.id)
    ∧ ((∀ a ∈ users, a.role ≠ "admin") →
        (escalate_grievance users uid g now).assigned_to = g.assigned_to)
    ∧ ((escalate_grievance users uid g now).updates =
        { grievance_id := g.id, user_id := uid,
          message := "Grievance escalated to level " ++ toString (g.escalation_level + 1)
            ++ ". Reassigned to administration.",
          status_change := some "escalated", created_at := now } :: g.updates)
    ∧ (∀ uid2 now2, g.escalation_level = 0 →
        (escalate_grievance users uid2 (escalate_grievance users uid g now) now2).escalation_level = 2) := by
  refine ⟨escalate_status users uid g now, escalate_level users uid g now, ?_, ?_,
    escalate_updates users uid g now, ?_⟩
  · rintro ⟨a, ha, harole⟩
    cases hF : users.find? (fun u => u.role == "admin") with
    | none =>
      exfalso
      have := List.find?_eq_none.mp hF a ha
      simp [harole] at this
    | some b =>
      have hb := List.find?_some hF
      have hbmem := List.mem_of_find?_eq_some hF
      simp only [beq_iff_eq] at hb
      exact ⟨b, hbmem, hb, by simp [escalate_grievance, hF]⟩
  · intro hno
    cases hF : users.find? (fun u => u.role == "admin") with
    | none => simp [escalate_grievance, hF]
    | some b =>
      exfalso
      have hb := List.find?_some hF
      have hbmem := List.mem_of_find?_eq_some hF
      simp only [beq_iff_eq] at hb
      exact hno b hbmem hb
  · intro uid2 now2 h0
    rw [escalate_level users uid2 (escalate_grievance users uid g now) now2,
      escalate_level users uid g now, h0]

/-- C5 witness: escalating a fresh grievance with the seed users assigns it
to the admin (id 1), reaches level 1, and a second escalation reaches 2. -/
theorem C5_witness :
    (escalate_grievance [uAdmin, uAuthHostel] (some 7) (mkG 1 "T") 10).status = "escalated"
    ∧ (escalate_grievance [uAdmin, uAuthHostel] (some 7) (mkG 1 "T") 10).escalation_level = 1
    ∧ (∃ a ∈ [uAdmin, uAuthHostel], a.role = "admin" ∧
        (escalate_grievance [uAdmin, uAuthHostel] (some 7) (mkG 1 "T") 10).assigned_to = some a.id)
    ∧ (escalate_grievance [uAdmin, uAuthHostel] (some 7)
        (escalate_grievance [uAdmin, uAuthHostel] (some 7) (mkG 1 "T") 10) 20).escalation_level = 2 := by
  have hparts := C5_escalate [uAdmin, uAuthHostel] (some 7) (mkG 1 "T") 10
  exact ⟨hparts.1, hparts.2.1, hparts.2.2.1 ⟨uAdmin, by decide, by decide⟩,
    hparts.2.2.2.2.2 (some 7) 20 (by decide)⟩

/-! ## C6 — auto-assignment routing -/

/-- C6: `auto_assign` returns the id of some user with role `authority` and
department equal to the category whenever one exists; otherwise the id of
some user with role `admin`; otherwise `none` — for every user list, hence
regardless of how many authorities exist for other departments. -/
theorem C6_auto_assign (users : List User) (category : String) :
    ((∃ u ∈ users, u.role = "authority" ∧ u.department = some category) →
      ∃ u ∈ users, u.role = "authority" ∧ u.department = some category ∧
        auto_assign users category = some u.id)
    ∧ ((∀ u ∈ users, ¬(u.role = "authority" ∧ u.department = some category)) →
        ((∃ u ∈ users, u.role = "admin") →
          ∃ u ∈ users, u.role = "admin" ∧ auto_assign users category = some u.id)
        ∧ ((∀ u ∈ users, u.role ≠ "admin") → auto_assign users category = none)) := by
  constructor
  · rintro ⟨u, hu, hrole, hdep⟩
    cases hF : users.find? (fun v => v.role == "authority" && v.department == some category) with
    | none =>
      exfalso
      have := List.find?_eq_none.mp hF u hu
      simp [hrole, hdep] at this
    | some a =>
      have ha := List.find?_some hF
      have hamem := List.mem_of_find?_eq_some hF
      simp only [Bool.and_eq_true, beq_iff_eq] at ha
      exact ⟨a, hamem, ha.1, ha.2, by simp [auto_assign, hF]⟩
  · intro hno
    have hF : users.find? (fun v => v.role == "authority" && v.department == some category)
        = none := by
      rw [List.find?_eq_none]
      intro u hu
      simp only [Bool.and_eq_true, beq_iff_eq]
      exact hno u hu
    constructor
    · rintro ⟨u, hu, hrole⟩
      cases hF2 : users.find? (fun v => v.role == "admin") with
      | none =>
        exfalso
        have := List.find?_eq_none.mp hF2 u hu
        simp [hrole] at this
      | some a =>
        have ha := List.find?_some hF2
        have hamem := List.mem_of_find?_eq_some hF2
        simp only [beq_iff_eq] at ha
        exact ⟨a, hamem, ha, by simp [auto_assign, hF, hF2]⟩
    · intro hnoadmin
      have hF2 : users.find? (fun v => v.role == "admin") = none := by
        rw [List.find?_eq_none]
        intro u hu
        simp only [beq_iff_eq]
        exact hnoadmin u hu
      simp [auto_assign, hF, hF2]

/-- C6 witness: with the admin listed first and a hostel authority second,
category `hostel` still routes to the authority (id 2), not the admin. -/
theorem C6_witness :
    (∃ u ∈ [uAdmin, uAuthHostel], u.role = "authority" ∧ u.department = some "hostel")
    ∧ (∃ u ∈ [uAdmin, uAuthHostel], u.role = "authority" ∧ u.department = some "hostel" ∧
        auto_assign [uAdmin, uAuthHostel] "hostel" = some u.id)
    ∧ auto_assign [uAdmin, uAuthHostel] "hostel" = some 2 := by
  have h1 : ∃ u ∈ [uAdmin, uAuthHostel], u.role = "authority" ∧ u.department = some "hostel" := by
    exact ⟨uAuthHostel, by decide, by decide, by decide⟩
  exact ⟨h1, (C6_auto_assign [uAdmin, uAuthHostel] "hostel").1 h1, by decide⟩

/-! ## C7 — submission performs no validation -/

/-- C7 (code bug): the spec demands a `ValidationError` — and no stored
record — for an empty title/description/category or a category outside
{academic, administrative, hostel, examination}.  The source route performs
no validation at all: it stores a grievance with every field empty, and one
whose category is `sports`. -/
theorem C7_no_validation :
    (submit_grievance [] [] none false "" "" "" "medium" "20260219" 0 1).map
        (fun g => (g.title, g.description, g.category, g.status))
      = some ("", "", "", "submitted")
    ∧ (submit_grievance [] [] (some 7) false "Ok" "d" "sports" "medium" "20260219" 0 1).map
        (fun g => (g.category, g.status))
      = some ("sports", "submitted") := by
  exact ⟨by decide, by decide⟩

/-! ## C8 — rating handling -/

/-- C8 (counterexample): the claim says an out-of-range or non-numeric
rating input is stored as 3.  In the source, `int(request.form.get('rating', 3))`
defaults only when the key is absent: the out-of-range input `"7"` is stored
as rating 7 (not 3), and the non-numeric input `"bad"` raises instead of
storing 3. -/
theorem C8_counterexample :
    ((submit_feedback (mkG 4 "T4") (some 7) (some "7") "c" 10).g.feedback.map
        (fun f => f.rating) = some 7)
    ∧ ¬((submit_feedback (mkG 4 "T4") (some 7) (some "7") "c" 10).g.feedback.map
        (fun f => f.rating) = some 3)
    ∧ (5 : Int) < 7
    ∧ (submit_feedback (mkG 4 "T4") (some 7) (some "bad") "c" 10).err = true
    ∧ (submit_feedback (mkG 4 "T4") (some 7) (some "bad") "c" 10).g.feedback = none := by
  refine ⟨by decide, by decide, by decide, by decide, by decide⟩

/-- C8 (amended): a missing rating input is stored as 3; a supplied rating
that parses as an integer is stored exactly as given, even outside 1–5; a
supplied rating that does not parse makes the request fail with an error and
stores nothing. -/
theorem C8_rating_behavior (g : Grievance) (uid : Option Int) (comment : String) (now : Nat)
    (h : g.feedback = none) :
    ((submit_feedback g uid none comment now).g.feedback.map (fun f => f.rating) = some 3)
    ∧ (∀ s n, pyInt? s = some n →
        (submit_feedback g uid (some s) comment now).g.feedback.map (fun f => f.rating) = some n)
    ∧ (∀ s, pyInt? s = none →
        (submit_feedback g uid (some s) comment now).err = true ∧
        (submit_feedback g uid (some s) comment now).g = g) := by
  refine ⟨?_, ?_, ?_⟩
  · simp [submit_feedback, h]
  · intro s n hP
    simp [submit_feedback, h, hP]
  · intro s hP
    simp [submit_feedback, h, hP]

/-- C8 witness: on a grievance with no feedback, a missing rating stores 3,
`"7"` parses to 7 and is stored as 7, and `"bad"` errors out. -/
theorem C8_witness :
    (mkG 4 "T4").feedback = none
    ∧ ((submit_feedback (mkG 4 "T4") (some 7) none "c" 10).g.feedback.map
        (fun f => f.rating) = some 3)
    ∧ ((submit_feedback (mkG 4 "T4") (some 7) (some "-2") "c" 10).g.feedback.map
        (fun f => f.rating) = some (-2))
    ∧ (submit_feedback (mkG 4 "T4") (some 7) (some "bad") "c" 10).err = true := by
  have hparts := C8_rating_behavior (mkG 4 "T4") (some 7) "c" 10 (by decide)
  exact ⟨by decide, hparts.1, hparts.2.1 "-2" (-2) (by decide),
    (hparts.2.2 "bad" (by decide)).1⟩

/-! ## C9 — anonymity hides the owner -/

/-- C9: a submission with `is_anonymous = true` stores no student owner,
even when a session user id was present. -/
theorem C9_anonymous_no_owner (users : List User) (grievances : List Grievance)
    (uid : Int) (title description category priority today : String) (now : Nat) (pk : Int)
    (g : Grievance)
    (h : submit_grievance users grievances (some uid) true
          title description category priority today now pk = some g) :
    g.student_id = none := by
  unfold submit_grievance at h
  cases hT : generate_ticket_id today grievances with
  | none => rw [hT] at h; exact absurd h (by simp)
  | some tid =>
    rw [hT] at h
    dsimp only at h
    rw [Option.some.injEq] at h
    subst h
    rfl

/-- The grievance produced by the C9/spec scenario: an anonymous hostel
submission by logged-in user 7 on 2026-02-19 (seconds timestamp 1000). -/
def gAnonSub : Grievance :=
  { id := 42, ticket_id := "GRV-20260219-0001", title := "Leaking pipe", description := "d",
    category := "hostel", priority := "high", status := "submitted", is_anonymous := true,
    student_id := none, assigned_to := some 2, created_at := 1000, resolved_at := none,
    deadline := some 260200, escalation_level := 0,
    updates := [{ grievance_id := 42, user_id := none,
                  message := "Grievance submitted successfully and routed to the concerned authority.",
                  status_change := some "submitted", created_at := 1000 }],
    feedback := none }

/-- C9 witness: the anonymous submission of an authenticated user (id 7)
stores `student_id = none`. -/
theorem C9_witness :
    submit_grievance [uAuthHostel] [] (some 7) true "Leaking pipe" "d" "hostel" "high"
        "20260219" 1000 42 = some gAnonSub
    ∧ gAnonSub.student_id = none := by
  have h : submit_grievance [uAuthHostel] [] (some 7) true "Leaking pipe" "d" "hostel" "high"
      "20260219" 1000 42 = some gAnonSub := by decide
  exact ⟨h, C9_anonymous_no_owner [uAuthHostel] [] 7 "Leaking pipe" "d" "hostel" "high"
    "20260219" 1000 42 gAnonSub h⟩

/-! ## C10 — public tracking bypasses the detail view's access control -/

/-- C10: `track_grievance` takes no actor — the route has no login or role
check — and returns exactly the grievance whose ticket id matches the
stripped input (none otherwise).  In particular it returns grievances the
detail view would deny a student: anonymous ones and those owned by another
student. -/
theorem C10_track_public (db : List Grievance) (t : String) :
    (∀ g, track_grievance db t = some g → g ∈ db ∧ g.ticket_id = pyStrip t)
    ∧ ((∀ g ∈ db, g.ticket_id ≠ pyStrip t) → track_grievance db t = none)
    ∧ (List.Pairwise (fun a b => a.ticket_id ≠ b.ticket_id) db →
        ∀ g ∈ db, g.ticket_id = pyStrip t → track_grievance db t = some g)
    ∧ (∀ (u : User) (g : Grievance), track_grievance db t = some g → u.role = "student" →
        g.student_id ≠ some u.id → detail_access_ok u g = false) := by
  refine ⟨?_, ?_, ?_, ?_⟩
  · intro g hg
    refine ⟨List.mem_of_find?_eq_some hg, ?_⟩
    have := List.find?_some hg
    simpa [beq_iff_eq] using this
  · intro hno
    rw [show track_grievance db t = db.find? (fun g => g.ticket_id == pyStrip t) from rfl]
    rw [List.find?_eq_none]
    intro g hg
    simp only [beq_iff_eq]
    exact hno g hg
  · intro hpw g hg hid
    induction db with
    | nil => cases hg
    | cons x xs ih =>
      rcases List.mem_cons.mp hg with rfl | hgtl
      · rw [show track_grievance (g :: xs) t = (g :: xs).find? (fun y => y.ticket_id == pyStrip t)
          from rfl]
        rw [List.find?_cons_of_pos _ (by simp [beq_iff_eq, hid])]
      · have hx : x.ticket_id ≠ pyStrip t := by
          have hne := (List.pairwise_cons.mp hpw).1 g hgtl
          rw [← hid]
          exact hne
        rw [show track_grievance (x :: xs) t = (x :: xs).find? (fun y => y.ticket_id == pyStrip t)
          from rfl]
        rw [List.find?_cons_of_neg _ (by simp [beq_iff_eq, hx])]
        exact ih (List.pairwise_cons.mp hpw).2 hgtl
  · intro u g _ hrole hown
    simp [detail_access_ok, hrole, bne_iff_ne, hown]

/-- An anonymous grievance, reachable publicly by ticket id. -/
def gAnonTracked : Grievance :=
  { mkG 5 "GRV-20260220-0002" with is_anonymous := true, student_id := none }

/-- C10 witness: the public tracker returns the anonymous grievance to an
unauthenticated caller given only the ticket id, while the student detail
view (even for the submitter, whose id is 7) denies access to it. -/
theorem C10_witness :
    track_grievance [gAnonTracked] "GRV-20260220-0002" = some gAnonTracked
    ∧ detail_access_ok uStudent gAnonTracked = false := by
  have h1 : track_grievance [gAnonTracked] "GRV-20260220-0002" = some gAnonTracked :=
    (C10_track_public [gAnonTracked] "GRV-20260220-0002").2.2.1 (by simp)
      gAnonTracked (by simp) (by decide)
  exact ⟨h1, (C10_track_public [gAnonTracked] "GRV-20260220-0002").2.2.2 uStudent gAnonTracked
    h1 (by decide) (by decide)⟩

end SGRS
